import Mathlib

/-!
Verification of the snake game core (ztkent/snake).

The Go source is shallowly embedded below. Grid-aligned coordinates in the
game are `float32` values that are always integers of small magnitude
(multiples of the 20-pixel grid pitch, screen bounds, and the off-lattice
center row 225), on which `float32` arithmetic (`+`, `-`, comparison,
assignment of `0` and `bound - size`) is exact, so coordinates are modelled
as `Int`.
-/

namespace SnakeGame

/-- `rl.Vector2` restricted to the exactly-representable integer grid values
the game uses. -/
structure Vec2 where
  x : Int
  y : Int
deriving DecidableEq, Repr

instance : Inhabited Vec2 := ⟨⟨0, 0⟩⟩

/-- `Direction` from snake.go. -/
structure Direction where
  x : Int
  y : Int
deriving DecidableEq, Repr

/-- `gridSize` constant from snake.go. -/
def gridSize : Int := 20

/-- `Food` from snake.go. -/
structure Food where
  position : Vec2
  size : Int
deriving DecidableEq, Repr

/-- `Bomb` from snake.go. -/
structure Bomb where
  position : Vec2
  size : Int
deriving DecidableEq, Repr

/-- `GameSnake` from snake.go (the unused `speed` field carries no game
logic and is dropped). -/
structure GameSnake where
  segments : List Vec2
  direction : Direction
  size : Int
deriving DecidableEq, Repr

/-- `(*Game).wrapPosition` from snake.go: per-axis, a coordinate at or past
the bound becomes 0, a negative coordinate becomes `bound - size`, anything
else is unchanged. -/
def wrapPosition (screenWidth screenHeight : Int) (pos : Vec2) (size : Int) : Vec2 :=
  let px := if pos.x ≥ screenWidth then 0
            else if pos.x < 0 then screenWidth - size
            else pos.x
  let py := if pos.y ≥ screenHeight then 0
            else if pos.y < 0 then screenHeight - size
            else pos.y
  ⟨px, py⟩

/-- `(*Game).checkSelfCollision` from snake.go: exact coordinate equality of
the candidate head against `segments[i]` for every `i ≥ 1`. -/
def checkSelfCollision (head : Vec2) (segments : List Vec2) : Bool :=
  (segments.drop 1).any (fun s => head.x == s.x && head.y == s.y)

/-- `rl.Rectangle` (integer-valued instances only). -/
structure Rectangle where
  x : Int
  y : Int
  width : Int
  height : Int
deriving DecidableEq, Repr

/-- Raylib's `CheckCollisionRecs`: strict axis-aligned rectangle overlap. -/
def checkCollisionRecs (r1 r2 : Rectangle) : Bool :=
  decide (r1.x < r2.x + r2.width ∧ r1.x + r1.width > r2.x ∧
          r1.y < r2.y + r2.height ∧ r1.y + r1.height > r2.y)

/-- `(*Game).checkFoodCollision` from snake.go. -/
def checkFoodCollision (head : Vec2) (size : Int) (food : Food) : Bool :=
  checkCollisionRecs ⟨head.x, head.y, size, size⟩
    ⟨food.position.x, food.position.y, food.size, food.size⟩

/-- `(*Game).checkBombCollision` from snake.go. -/
def checkBombCollision (head : Vec2) (size : Int) (bomb : Bomb) : Bool :=
  checkCollisionRecs ⟨head.x, head.y, size, size⟩
    ⟨bomb.position.x, bomb.position.y, bomb.size, bomb.size⟩

/-- C5: `wrapPosition` keeps each axis in `[0, bound)` (given
`0 < cellSize ≤ bound`), sends an over-bound coordinate to 0, a negative
coordinate to `bound - cellSize`, and leaves an in-range coordinate
unchanged. -/
theorem wrapPosition_spec (screenWidth screenHeight size : Int) (pos : Vec2)
    (hs : 0 < size) (hw : size ≤ screenWidth) (hh : size ≤ screenHeight) :
    (0 ≤ (wrapPosition screenWidth screenHeight pos size).x ∧
      (wrapPosition screenWidth screenHeight pos size).x < screenWidth ∧
      0 ≤ (wrapPosition screenWidth screenHeight pos size).y ∧
      (wrapPosition screenWidth screenHeight pos size).y < screenHeight) ∧
    (pos.x ≥ screenWidth → (wrapPosition screenWidth screenHeight pos size).x = 0) ∧
    (pos.x < 0 → (wrapPosition screenWidth screenHeight pos size).x = screenWidth - size) ∧
    (0 ≤ pos.x → pos.x < screenWidth →
      (wrapPosition screenWidth screenHeight pos size).x = pos.x) ∧
    (pos.y ≥ screenHeight → (wrapPosition screenWidth screenHeight pos size).y = 0) ∧
    (pos.y < 0 → (wrapPosition screenWidth screenHeight pos size).y = screenHeight - size) ∧
    (0 ≤ pos.y → pos.y < screenHeight →
      (wrapPosition screenWidth screenHeight pos size).y = pos.y) := by
  unfold wrapPosition
  dsimp only
  refine ⟨⟨?_, ?_, ?_, ?_⟩, ?_, ?_, ?_, ?_, ?_, ?_⟩ <;> intros <;>
    (split <;> (try split) <;> omega)

/-- Witness for C5 at screen 800×450, cell size 20, position (820, -3). -/
theorem wrapPosition_spec_witness :
    (0 : Int) < 20 ∧ (20 : Int) ≤ 800 ∧ (20 : Int) ≤ 450 ∧
    ((0 ≤ (wrapPosition 800 450 ⟨820, -3⟩ 20).x ∧
        (wrapPosition 800 450 ⟨820, -3⟩ 20).x < 800 ∧
        0 ≤ (wrapPosition 800 450 ⟨820, -3⟩ 20).y ∧
        (wrapPosition 800 450 ⟨820, -3⟩ 20).y < 450) ∧
      ((820 : Int) ≥ 800 → (wrapPosition 800 450 ⟨820, -3⟩ 20).x = 0) ∧
      ((820 : Int) < 0 → (wrapPosition 800 450 ⟨820, -3⟩ 20).x = 800 - 20) ∧
      ((0 : Int) ≤ 820 → (820 : Int) < 800 →
        (wrapPosition 800 450 ⟨820, -3⟩ 20).x = 820) ∧
      ((-3 : Int) ≥ 450 → (wrapPosition 800 450 ⟨820, -3⟩ 20).y = 0) ∧
      ((-3 : Int) < 0 → (wrapPosition 800 450 ⟨820, -3⟩ 20).y = 450 - 20) ∧
      ((0 : Int) ≤ -3 → (-3 : Int) < 450 →
        (wrapPosition 800 450 ⟨820, -3⟩ 20).y = -3)) :=
  ⟨by decide, by decide, by decide,
    wrapPosition_spec 800 450 20 ⟨820, -3⟩ (by decide) (by decide) (by decide)⟩

/-- The snake built at the top of `StartGame`: two segments centered on the
screen, heading right, cell size `gridSize`. -/
def initialSnake (screenWidth screenHeight : Int) : GameSnake :=
  { segments :=
      [⟨screenWidth / 2, screenHeight / 2⟩,
       ⟨screenWidth / 2 - gridSize, screenHeight / 2⟩],
    direction := ⟨1, 0⟩,
    size := gridSize }

/-- The candidate head of one 15-FPS update in `StartGame`:
`segments[0] + direction * size`, then screen wrapping. -/
def candidateHead (screenWidth screenHeight : Int) (snake : GameSnake) : Vec2 :=
  wrapPosition screenWidth screenHeight
    ⟨snake.segments.headI.x + snake.direction.x * snake.size,
     snake.segments.headI.y + snake.direction.y * snake.size⟩
    snake.size

/-- Outcome of one 15-FPS update block of `StartGame`. `ate` records whether
a food item was consumed (the tick on which `g.score.points` increments). -/
inductive TickResult where
  | selfCollision : TickResult
  | bombCollision : TickResult
  | alive (snake : GameSnake) (foods : List Food) (bombs : List Bomb)
      (ate : Bool) : TickResult
deriving DecidableEq, Repr

/-- One 15-FPS update block of `StartGame` (snake.go lines 182–240):
compute and wrap the candidate head; die on self- or bomb-collision;
otherwise eat the first overlapping food (prepending the head and removing
that food); then, if the food list is empty, replace foods and bombs by the
freshly spawned sets (`spawned`, standing for the RNG-dependent result of
`spawnFoodAndBombs`) without any further segment update, and if it is not
empty, prepend the candidate head and drop the last segment. -/
def tick (screenWidth screenHeight : Int) (snake : GameSnake)
    (foods : List Food) (bombs : List Bomb)
    (spawned : List Food × List Bomb) : TickResult :=
  let newHead := candidateHead screenWidth screenHeight snake
  if checkSelfCollision newHead snake.segments then
    .selfCollision
  else if bombs.any (fun b => checkBombCollision newHead snake.size b) then
    .bombCollision
  else
    match List.findIdx? (fun f => checkFoodCollision newHead snake.size f) foods with
    | some i =>
        let segsAfterEat := newHead :: snake.segments
        let remaining := foods.take i ++ foods.drop (i + 1)
        if remaining.isEmpty then
          .alive { snake with segments := segsAfterEat } spawned.1 spawned.2 true
        else
          .alive { snake with segments := newHead :: segsAfterEat.dropLast }
            remaining bombs true
    | none =>
        if foods.isEmpty then
          .alive snake spawned.1 spawned.2 false
        else
          .alive { snake with segments := newHead :: snake.segments.dropLast }
            foods bombs false

/-- Play-session state: the snake, the live items and the points counter. -/
structure PlayState where
  snake : GameSnake
  foods : List Food
  bombs : List Bomb
  points : Nat
deriving DecidableEq, Repr

/-- One session step: `none` when the tick kills the snake, otherwise the
updated state, with `points` incremented exactly on eating ticks. -/
def stepState (screenWidth screenHeight : Int) (s : PlayState)
    (spawned : List Food × List Bomb) : Option PlayState :=
  match tick screenWidth screenHeight s.snake s.foods s.bombs spawned with
  | .selfCollision => none
  | .bombCollision => none
  | .alive sn f b ate => some ⟨sn, f, b, s.points + (if ate then 1 else 0)⟩

/-- The state on entering `StartGame`: the initial snake, empty item lists,
zero points. -/
def initialState (screenWidth screenHeight : Int) : PlayState :=
  ⟨initialSnake screenWidth screenHeight, [], [], 0⟩

/-- Run a sequence of ticks, one spawn oracle per tick (each oracle stands
for whatever `spawnFoodAndBombs` would produce if invoked on that tick). -/
def runSession (screenWidth screenHeight : Int) (s : PlayState) :
    List (List Food × List Bomb) → Option PlayState
  | [] => some s
  | o :: rest =>
    match stepState screenWidth screenHeight s o with
    | none => none
    | some s1 => runSession screenWidth screenHeight s1 rest

/-- `checkSelfCollision` is exact membership of the candidate head among the
segments at indices ≥ 1. -/
theorem checkSelfCollision_iff (head : Vec2) (segments : List Vec2) :
    checkSelfCollision head segments = true ↔ head ∈ segments.drop 1 := by
  unfold checkSelfCollision
  rw [List.any_eq_true]
  constructor
  · rintro ⟨s, hs, hb⟩
    have hx : head.x = s.x := by
      have := (Bool.and_eq_true _ _).mp hb
      exact eq_of_beq this.1
    have hy : head.y = s.y := by
      have := (Bool.and_eq_true _ _).mp hb
      exact eq_of_beq this.2
    have : head = s := by
      cases head; cases s; simp_all
    simpa [this] using hs
  · intro hmem
    exact ⟨head, hmem, by simp⟩

/-- `findIdx?` finds nothing when the predicate fails everywhere. -/
theorem findIdx?_eq_none_of_all_false {α : Type} (p : α → Bool) (l : List α)
    (h : ∀ x ∈ l, p x = false) : List.findIdx? p l = none :=
  List.findIdx?_eq_none_iff.mpr h

/-- A tick that hits nothing and finds a non-empty food set performs the
ordinary translation: prepend the wrapped candidate head, drop the tail. -/
theorem tick_move (screenWidth screenHeight : Int) (snake : GameSnake)
    (foods : List Food) (bombs : List Bomb) (spawned : List Food × List Bomb)
    (h1 : checkSelfCollision (candidateHead screenWidth screenHeight snake)
      snake.segments = false)
    (h2 : bombs.any (fun b => checkBombCollision
      (candidateHead screenWidth screenHeight snake) snake.size b) = false)
    (h3 : List.findIdx? (fun f => checkFoodCollision
      (candidateHead screenWidth screenHeight snake) snake.size f) foods = none)
    (h4 : foods.isEmpty = false) :
    tick screenWidth screenHeight snake foods bombs spawned =
      TickResult.alive
        { snake with segments := candidateHead screenWidth screenHeight snake ::
            snake.segments.dropLast }
        foods bombs false := by
  unfold tick
  simp [h1, h2, h3, h4]

/-- C1 (amended): a Play-state tick ends the session by self-collision
exactly when the wrapped candidate head coincides (exact equality on both
axes) with one of the segments at indices ≥ 1 — all segments as they are
before the tail shift, the tail's current cell included even when the tail
is about to move away. -/
theorem tick_selfCollision_iff_mem_body (screenWidth screenHeight : Int)
    (snake : GameSnake) (foods : List Food) (bombs : List Bomb)
    (spawned : List Food × List Bomb) :
    tick screenWidth screenHeight snake foods bombs spawned =
        TickResult.selfCollision ↔
      candidateHead screenWidth screenHeight snake ∈ snake.segments.drop 1 := by
  rw [← checkSelfCollision_iff]
  unfold tick
  dsimp only
  by_cases h : checkSelfCollision
      (candidateHead screenWidth screenHeight snake) snake.segments = true
  · simp [h]
  · rw [Bool.not_eq_true] at h
    refine iff_of_false ?_ (by simp [h])
    intro hc
    rw [h] at hc
    simp only [Bool.false_eq_true, if_false] at hc
    split at hc <;> (try split at hc) <;> (try split at hc) <;> simp_all

/-- Witness for C1's amended theorem at a concrete colliding state. -/
theorem tick_selfCollision_iff_mem_body_witness :
    tick 800 450 ⟨[⟨0, 0⟩, ⟨20, 0⟩, ⟨20, 20⟩, ⟨0, 20⟩], ⟨0, 1⟩, 20⟩
        [⟨⟨100, 100⟩, 20⟩] [] ([], []) = TickResult.selfCollision :=
  (tick_selfCollision_iff_mem_body 800 450
    ⟨[⟨0, 0⟩, ⟨20, 0⟩, ⟨20, 20⟩, ⟨0, 20⟩], ⟨0, 1⟩, 20⟩
    [⟨⟨100, 100⟩, 20⟩] [] ([], [])).mpr (by decide)

/-- C1 as stated is false: with snake [(0,0),(20,0),(20,20),(0,20)] heading
down, the wrapped candidate head (0,20) equals only the tail cell, the tail
is about to move away (a food item exists elsewhere and none is eaten), yet
the code ends the session by self-collision. -/
theorem tick_tail_cell_fatal_counterexample :
    tick 800 450 ⟨[⟨0, 0⟩, ⟨20, 0⟩, ⟨20, 20⟩, ⟨0, 20⟩], ⟨0, 1⟩, 20⟩
        [⟨⟨200, 100⟩, 20⟩] [] ([], []) = TickResult.selfCollision ∧
      candidateHead 800 450 ⟨[⟨0, 0⟩, ⟨20, 0⟩, ⟨20, 20⟩, ⟨0, 20⟩], ⟨0, 1⟩, 20⟩ =
        ⟨0, 20⟩ ∧
      (⟨0, 20⟩ : Vec2) ∉
        (([⟨0, 0⟩, ⟨20, 0⟩, ⟨20, 20⟩, ⟨0, 20⟩] : List Vec2).drop 1).dropLast ∧
      ([⟨0, 0⟩, ⟨20, 0⟩, ⟨20, 20⟩, ⟨0, 20⟩] : List Vec2).getLast? = some ⟨0, 20⟩ ∧
      List.findIdx? (fun f => checkFoodCollision ⟨0, 20⟩ 20 f)
        [(⟨⟨200, 100⟩, 20⟩ : Food)] = none ∧
      ([(⟨⟨200, 100⟩, 20⟩ : Food)] : List Food) ≠ [] := by
  refine ⟨by decide, by decide, by decide, by decide, ?_, by decide⟩
  decide

/-- C4 as stated is false at the session's very first tick: immediately
after initialization the food set is empty, so the tick (vacuously free of
items in the snake's path) spawns items and leaves the segments at
[(400,225),(380,225)] instead of advancing them to [(420,225),(400,225)]. -/
theorem tick_initial_empty_foods_counterexample :
    tick 800 450 (initialSnake 800 450) [] [] ([], []) =
        TickResult.alive (initialSnake 800 450) [] [] false ∧
      (initialSnake 800 450).segments = [⟨400, 225⟩, ⟨380, 225⟩] ∧
      ([⟨400, 225⟩, ⟨380, 225⟩] : List Vec2) ≠ [⟨420, 225⟩, ⟨400, 225⟩] := by
  refine ⟨by decide, by decide, by decide⟩

/-- C4 (amended): from the initial snake [(400,225),(380,225)] heading
(1,0) on the 800×450 screen, a tick on which at least one item is present
and no item overlaps the snake's path yields segments
[(420,225),(400,225)]; and whenever the computed head x-coordinate 420 is ≥
the screen width, wrapping yields head (0,225). (When the item set is
empty, the tick spawns items and does not move the snake.) -/
theorem tick_initial_moves_head_one_cell (foods : List Food)
    (bombs : List Bomb) (spawned : List Food × List Bomb)
    (hne : foods ≠ [])
    (hf : ∀ f ∈ foods, checkFoodCollision ⟨420, 225⟩ 20 f = false)
    (hb : ∀ b ∈ bombs, checkBombCollision ⟨420, 225⟩ 20 b = false) :
    (tick 800 450 (initialSnake 800 450) foods bombs spawned =
      TickResult.alive ⟨[⟨420, 225⟩, ⟨400, 225⟩], ⟨1, 0⟩, 20⟩ foods bombs false) ∧
    (∀ screenWidth : Int, screenWidth ≤ 420 →
      wrapPosition screenWidth 450 ⟨420, 225⟩ 20 = ⟨0, 225⟩) := by
  constructor
  · have hch : candidateHead 800 450 (initialSnake 800 450) = ⟨420, 225⟩ := by
      decide
    have hsz : (initialSnake 800 450).size = 20 := by decide
    have hempty : foods.isEmpty = false := by
      cases foods with
      | nil => exact absurd rfl hne
      | cons f fs => rfl
    have hstep := tick_move 800 450 (initialSnake 800 450) foods bombs spawned
      (by rw [hch]; decide)
      (by
        rw [hch, hsz, List.any_eq_false]
        intro b hbmem
        simp [hb b hbmem])
      (by
        rw [hch, hsz]
        exact findIdx?_eq_none_of_all_false _ _ hf)
      hempty
    rw [hstep]
    have hsnake : ({ initialSnake 800 450 with
        segments := candidateHead 800 450 (initialSnake 800 450) ::
          (initialSnake 800 450).segments.dropLast } : GameSnake) =
        ⟨[⟨420, 225⟩, ⟨400, 225⟩], ⟨1, 0⟩, 20⟩ := by decide
    rw [hsnake]
  · intro screenWidth hw
    unfold wrapPosition
    have h1 : (420 : Int) ≥ screenWidth := by omega
    simp only [h1, if_true]
    norm_num

/-- Per-tick segment-count accounting: a surviving tick adds exactly one
segment when food was eaten and keeps the count otherwise. -/
theorem tick_length (screenWidth screenHeight : Int) (snake : GameSnake)
    (foods : List Food) (bombs : List Bomb) (spawned : List Food × List Bomb)
    (sn : GameSnake) (f : List Food) (b : List Bomb) (ate : Bool)
    (hne : snake.segments ≠ [])
    (h : tick screenWidth screenHeight snake foods bombs spawned =
      TickResult.alive sn f b ate) :
    sn.segments.length = snake.segments.length + (if ate then 1 else 0) := by
  have hp : 0 < snake.segments.length := List.length_pos.mpr hne
  unfold tick at h
  dsimp only at h
  split at h <;> (try split at h) <;> (try split at h) <;> (try split at h) <;>
    first
      | exact absurd h (by intro hc; exact TickResult.noConfusion hc)
      | (injection h with h1 h2 h3 h4
         subst h1; subst h2; subst h3; subst h4
         simp [List.length_dropLast]
         try omega)

/-- A surviving step keeps these two quantities in lockstep: points and
segment count move by the same amount, and segments stay non-empty. -/
theorem stepState_invariant (screenWidth screenHeight : Int) (s : PlayState)
    (o : List Food × List Bomb) (s1 : PlayState)
    (hne : s.snake.segments ≠ [])
    (h : stepState screenWidth screenHeight s o = some s1) :
    s1.snake.segments.length + s.points = s.snake.segments.length + s1.points := by
  unfold stepState at h
  cases htick : tick screenWidth screenHeight s.snake s.foods s.bombs o with
  | selfCollision => rw [htick] at h; exact absurd h (by simp)
  | bombCollision => rw [htick] at h; exact absurd h (by simp)
  | alive sn f b ate =>
    rw [htick] at h
    have hlen := tick_length screenWidth screenHeight s.snake s.foods s.bombs o
      sn f b ate hne htick
    injection h with h1
    subst h1
    dsimp only
    omega

/-- Along a whole surviving session the invariant
`segments.length = 2 + points` is preserved. -/
theorem runSession_length_invariant (screenWidth screenHeight : Int)
    (oracles : List (List Food × List Bomb)) :
    ∀ (s s' : PlayState), s.snake.segments.length = 2 + s.points →
      runSession screenWidth screenHeight s oracles = some s' →
      s'.snake.segments.length = 2 + s'.points := by
  induction oracles with
  | nil =>
    intro s s' hinv h
    unfold runSession at h
    injection h with h1
    subst h1
    exact hinv
  | cons o rest ih =>
    intro s s' hinv h
    unfold runSession at h
    cases hstep : stepState screenWidth screenHeight s o with
    | none => rw [hstep] at h; exact absurd h (by simp)
    | some s1 =>
      rw [hstep] at h
      have hne : s.snake.segments ≠ [] := by
        intro hnil
        rw [hnil] at hinv
        simp at hinv
        omega
      have := stepState_invariant screenWidth screenHeight s o s1 hne hstep
      exact ih s1 s' (by omega) h

/-- C2: a session that starts in `StartGame`'s initial state and survives
ends with segment count `2 + points` (points counts exactly the consumed
food items); and on every single surviving tick from a non-empty snake the
segment count grows by exactly one when food is eaten and is unchanged
(never decreased) otherwise. -/
theorem growth_law :
    (∀ (screenWidth screenHeight : Int)
        (oracles : List (List Food × List Bomb)) (s' : PlayState),
      runSession screenWidth screenHeight
          (initialState screenWidth screenHeight) oracles = some s' →
      s'.snake.segments.length = 2 + s'.points) ∧
    (∀ (screenWidth screenHeight : Int) (snake : GameSnake)
        (foods : List Food) (bombs : List Bomb)
        (spawned : List Food × List Bomb) (sn : GameSnake) (f : List Food)
        (b : List Bomb) (ate : Bool), snake.segments ≠ [] →
      tick screenWidth screenHeight snake foods bombs spawned =
        TickResult.alive sn f b ate →
      sn.segments.length = snake.segments.length + (if ate then 1 else 0)) := by
  constructor
  · intro screenWidth screenHeight oracles s' h
    exact runSession_length_invariant screenWidth screenHeight oracles
      (initialState screenWidth screenHeight) s' (by simp [initialState, initialSnake]) h
  · intro screenWidth screenHeight snake foods bombs spawned sn f b ate hne h
    exact tick_length screenWidth screenHeight snake foods bombs spawned
      sn f b ate hne h

/-- Witness for C2: a one-tick session (the first tick spawns and does not
eat) ends with 2 segments and 0 points; a concrete eating tick goes from 2
to 3 segments. -/
theorem growth_law_witness :
    (runSession 800 450 (initialState 800 450) [([], [])] =
        some (initialState 800 450) ∧
      (initialState 800 450).snake.segments.length =
        2 + (initialState 800 450).points) ∧
    (([⟨400, 225⟩, ⟨380, 225⟩] : List Vec2) ≠ [] ∧
      tick 800 450 ⟨[⟨400, 225⟩, ⟨380, 225⟩], ⟨1, 0⟩, 20⟩
          [⟨⟨420, 220⟩, 20⟩] [] ([], []) =
        TickResult.alive ⟨[⟨420, 225⟩, ⟨400, 225⟩, ⟨380, 225⟩], ⟨1, 0⟩, 20⟩
          [] [] true ∧
      ([⟨420, 225⟩, ⟨400, 225⟩, ⟨380, 225⟩] : List Vec2).length =
        ([⟨400, 225⟩, ⟨380, 225⟩] : List Vec2).length +
          (if (true : Bool) then 1 else 0)) :=
  ⟨⟨by decide, growth_law.1 800 450 [([], [])] (initialState 800 450) (by decide)⟩,
    by decide, by decide,
    growth_law.2 800 450 ⟨[⟨400, 225⟩, ⟨380, 225⟩], ⟨1, 0⟩, 20⟩
      [⟨⟨420, 220⟩, 20⟩] [] ([], [])
      ⟨[⟨420, 225⟩, ⟨400, 225⟩, ⟨380, 225⟩], ⟨1, 0⟩, 20⟩ [] [] true
      (by decide) (by decide)⟩

/-- C3 fails on the code: eating a food item while another food item
remains live prepends the candidate head twice (snake.go lines 216 and
233), so the tick yields segments [(420,225),(420,225),(400,225)] — two
coinciding segments — from the duplicate-free state
[(400,225),(380,225)]. -/
theorem tick_duplicate_head_segments :
    tick 800 450 ⟨[⟨400, 225⟩, ⟨380, 225⟩], ⟨1, 0⟩, 20⟩
        [⟨⟨420, 220⟩, 20⟩, ⟨⟨100, 100⟩, 20⟩] [] ([], []) =
      TickResult.alive ⟨[⟨420, 225⟩, ⟨420, 225⟩, ⟨400, 225⟩], ⟨1, 0⟩, 20⟩
        [⟨⟨100, 100⟩, 20⟩] [] true ∧
    ([⟨400, 225⟩, ⟨380, 225⟩] : List Vec2).Nodup ∧
    ¬ ([⟨420, 225⟩, ⟨420, 225⟩, ⟨400, 225⟩] : List Vec2).Nodup :=
  ⟨by decide, by decide, by decide⟩

/-- The four arrow keys read by `StartGame`'s input block. -/
inductive ArrowKey where
  | up : ArrowKey
  | down : ArrowKey
  | left : ArrowKey
  | right : ArrowKey
deriving DecidableEq, Repr

/-- The heading each arrow key requests. -/
def keyDirection : ArrowKey → Direction
  | .up => ⟨0, -1⟩
  | .down => ⟨0, 1⟩
  | .left => ⟨-1, 0⟩
  | .right => ⟨1, 0⟩

/-- `StartGame`'s input block (snake.go lines 166–177) for a frame on which
exactly one arrow key is pressed: each key overwrites the heading only
under its guard on the current heading. -/
def handleDirectionInput (d : Direction) (k : ArrowKey) : Direction :=
  match k with
  | .up => if d.y ≠ 1 then ⟨0, -1⟩ else d
  | .down => if d.y ≠ -1 then ⟨0, 1⟩ else d
  | .left => if d.x ≠ 1 then ⟨-1, 0⟩ else d
  | .right => if d.x ≠ -1 then ⟨1, 0⟩ else d

/-- Negation of a heading (the 180° reversal). -/
def oppositeDirection (d : Direction) : Direction := ⟨-d.x, -d.y⟩

/-- The four legal headings. -/
def isHeading (d : Direction) : Prop :=
  d = ⟨0, -1⟩ ∨ d = ⟨0, 1⟩ ∨ d = ⟨-1, 0⟩ ∨ d = ⟨1, 0⟩

instance (d : Direction) : Decidable (isHeading d) := by
  unfold isHeading
  infer_instance

/-- C6: for every current heading, a request equal to its reversal is
rejected (heading unchanged) and every other request — including the
current heading itself — is accepted; hence a single input never reverses
the heading 180°. -/
theorem no_reversal (d : Direction) (k : ArrowKey) (hd : isHeading d) :
    (handleDirectionInput d k =
      if keyDirection k = oppositeDirection d then d else keyDirection k) ∧
    handleDirectionInput d k ≠ oppositeDirection d := by
  rcases hd with h | h | h | h <;> subst h <;> cases k <;> exact ⟨by decide, by decide⟩

/-- Witness for C6: heading Right with Left requested is rejected. -/
theorem no_reversal_witness :
    isHeading ⟨1, 0⟩ ∧
    ((handleDirectionInput ⟨1, 0⟩ ArrowKey.left =
        if keyDirection ArrowKey.left = oppositeDirection ⟨1, 0⟩ then ⟨1, 0⟩
        else keyDirection ArrowKey.left) ∧
      handleDirectionInput ⟨1, 0⟩ ArrowKey.left ≠ oppositeDirection ⟨1, 0⟩) :=
  ⟨by decide, no_reversal ⟨1, 0⟩ ArrowKey.left (by decide)⟩

/-- Witness for C4's amended theorem: one food item far from the path. -/
theorem tick_initial_moves_head_one_cell_witness :
    tick 800 450 (initialSnake 800 450) [⟨⟨100, 100⟩, 20⟩] [] ([], []) =
      TickResult.alive ⟨[⟨420, 225⟩, ⟨400, 225⟩], ⟨1, 0⟩, 20⟩
        [⟨⟨100, 100⟩, 20⟩] [] false :=
  (tick_initial_moves_head_one_cell [⟨⟨100, 100⟩, 20⟩] [] ([], [])
    (by decide) (by decide) (by decide)).1

/-- `foodCount` computation in `spawnFoodAndBombs` (snake.go lines
347–350): `int(currentGameTime/10) + 1`, capped at 6. Elapsed play time is
taken in whole seconds. -/
def foodCountFor (currentGameTime : Nat) : Nat :=
  let c := currentGameTime / 10 + 1
  if c > 6 then 6 else c

/-- `bombCount` computation in `spawnFoodAndBombs` (snake.go lines
352–355). -/
def bombCountFor (foodCount : Nat) : Nat :=
  if foodCount > 1 then foodCount / 2 else 0

/-- The 3×3 block of cells marked occupied around a placed food item
(snake.go lines 382–389); `dx = dy = 0` re-marks the item's own cell. Keys
`"x,y"` of the Go `occupied` map are modelled as integer pairs (the
`fmt.Sprintf` encoding is injective on them). -/
def neighborKeys (x y : Int) : List (Int × Int) :=
  [(-1 : Int), 0, 1].flatMap fun dx =>
    [(-1 : Int), 0, 1].map fun dy => (x + dx * gridSize, y + dy * gridSize)

/-- The food-placement loop of `spawnFoodAndBombs` (snake.go lines
369–391). `samples` is a finite prefix of the random cell stream
(`rl.GetRandomValue` per axis); the Go loop has NO attempt cap — it keeps
sampling until `foodCount` items are placed — so running out of `samples`
here corresponds to the Go loop still spinning after that many attempts. -/
def spawnFoodLoop (foodCount : Nat) (foods : List Food)
    (occupied : List (Int × Int)) : List (Nat × Nat) → List Food × List (Int × Int)
  | [] => (foods, occupied)
  | (rx, ry) :: rest =>
    if foods.length < foodCount then
      let x : Int := (rx : Int) * gridSize
      let y : Int := (ry : Int) * gridSize
      if (x, y) ∈ occupied then
        spawnFoodLoop foodCount foods occupied rest
      else
        spawnFoodLoop foodCount (foods ++ [⟨⟨x, y⟩, gridSize⟩])
          (occupied ++ neighborKeys x y) rest
    else (foods, occupied)

/-- The bomb-placement loop of `spawnFoodAndBombs` (snake.go lines
394–408), same unbounded-retry structure (bombs mark only their own
cell). -/
def spawnBombLoop (bombCount : Nat) (bombs : List Bomb)
    (occupied : List (Int × Int)) : List (Nat × Nat) → List Bomb × List (Int × Int)
  | [] => (bombs, occupied)
  | (rx, ry) :: rest =>
    if bombs.length < bombCount then
      let x : Int := (rx : Int) * gridSize
      let y : Int := (ry : Int) * gridSize
      if (x, y) ∈ occupied then
        spawnBombLoop bombCount bombs occupied rest
      else
        spawnBombLoop bombCount (bombs ++ [⟨⟨x, y⟩, gridSize⟩])
          (occupied ++ [(x, y)]) rest
    else (bombs, occupied)

/-- `(*Game).spawnFoodAndBombs` (snake.go lines 342–409): compute counts,
seed the occupancy set with the snake's segment cells, clear and refill the
item lists. `foodSamples`/`bombSamples` are the finite prefixes of the two
RNG attempt streams actually consumed. -/
def spawnFoodAndBombs (screenWidth screenHeight : Int)
    (snakeSegments : List Vec2) (currentGameTime : Nat)
    (foodSamples bombSamples : List (Nat × Nat)) : List Food × List Bomb :=
  let foodCount := foodCountFor currentGameTime
  let bombCount := bombCountFor foodCount
  let occupied := snakeSegments.map fun s => (s.x, s.y)
  let fr := spawnFoodLoop foodCount [] occupied foodSamples
  let br := spawnBombLoop bombCount [] fr.2 bombSamples
  (fr.1, br.1)

/-- On the 40×20 screen (grid 2×1) with both cells occupied by the snake,
every valid sample is rejected, so the food loop never places anything, no
matter how many attempts are made. -/
theorem spawnFoodLoop_stuck (samples : List (Nat × Nat))
    (hvalid : ∀ s ∈ samples, s.1 < 2 ∧ s.2 < 1) :
    spawnFoodLoop 1 [] [((0 : Int), (0 : Int)), ((20 : Int), (0 : Int))]
      samples = ([], [((0 : Int), (0 : Int)), ((20 : Int), (0 : Int))]) := by
  induction samples with
  | nil => rfl
  | cons s rest ih =>
    obtain ⟨rx, ry⟩ := s
    obtain ⟨h1, h2⟩ := hvalid (rx, ry) (by simp)
    have hrest : ∀ s ∈ rest, s.1 < 2 ∧ s.2 < 1 := by
      intro x hx
      exact hvalid x (by simp [hx])
    have hry : ry = 0 := by omega
    have hrx : rx = 0 ∨ rx = 1 := by omega
    subst hry
    rcases hrx with hrx | hrx <;> subst hrx <;>
      simpa [spawnFoodLoop, gridSize] using ih hrest

/-- C7 fails on the code: `spawnFoodAndBombs` has no attempt cap. On a
40×20 screen whose two grid cells are both occupied by the snake, one food
item is requested (elapsed time 0) but after ANY finite number of valid
sampling attempts zero items have been placed, so the Go loop's condition
`len(foods) < foodCount` holds forever and the procedure never terminates
— there is no budget after which a smaller item count is accepted. -/
theorem spawn_no_attempt_bound (foodSamples bombSamples : List (Nat × Nat))
    (hvalid : ∀ s ∈ foodSamples, s.1 < 2 ∧ s.2 < 1) :
    ((spawnFoodAndBombs 40 20 [⟨0, 0⟩, ⟨20, 0⟩] 0
        foodSamples bombSamples).1).length < foodCountFor 0 := by
  have hstuck := spawnFoodLoop_stuck foodSamples hvalid
  have hfc : foodCountFor 0 = 1 := by decide
  unfold spawnFoodAndBombs
  dsimp only
  rw [hfc]
  have hocc : ([⟨0, 0⟩, ⟨20, 0⟩] : List Vec2).map (fun s => (s.x, s.y)) =
      [((0 : Int), (0 : Int)), ((20 : Int), (0 : Int))] := by decide
  rw [hocc, hstuck]
  decide

/-- Witness for C7's theorem: three concrete rejected attempts. -/
theorem spawn_no_attempt_bound_witness :
    (∀ s ∈ [((0 : Nat), (0 : Nat)), (1, 0), (0, 0)], s.1 < 2 ∧ s.2 < 1) ∧
    ((spawnFoodAndBombs 40 20 [⟨0, 0⟩, ⟨20, 0⟩] 0
        [(0, 0), (1, 0), (0, 0)] []).1).length < foodCountFor 0 :=
  ⟨by decide,
    spawn_no_attempt_bound [(0, 0), (1, 0), (0, 0)] [] (by decide)⟩

/-- `HighScore` from the highscores package. `Duration` is a `float32` in
Go; the persisted values and every comparison the code performs are exact
on ℚ. -/
structure HighScore where
  score : Int
  duration : ℚ
  date : String
deriving DecidableEq, Repr

/-- `maxHighScores` constant from the highscores package. -/
def maxHighScores : Nat := 3

/-- The ordering used by `UpdateHighScores`'s `sort.Slice` comparator:
higher score first, ties broken by lower duration first. `scoreLE a b`
holds when `a` may come before `b`. -/
def scoreLE (a b : HighScore) : Prop :=
  b.score < a.score ∨ (a.score = b.score ∧ a.duration ≤ b.duration)

instance : DecidableRel scoreLE := fun a b => by
  unfold scoreLE
  infer_instance

instance : IsTotal HighScore scoreLE where
  total a b := by
    rcases lt_trichotomy a.score b.score with h | h | h
    · exact Or.inr (Or.inl h)
    · rcases le_total a.duration b.duration with hd | hd
      · exact Or.inl (Or.inr ⟨h, hd⟩)
      · exact Or.inr (Or.inr ⟨h.symm, hd⟩)
    · exact Or.inl (Or.inl h)

instance : IsTrans HighScore scoreLE where
  trans a b c hab hbc := by
    rcases hab with h1 | ⟨h1, h1d⟩
    · rcases hbc with h2 | ⟨h2, _⟩
      · exact Or.inl (h2.trans h1)
      · exact Or.inl (h2 ▸ h1)
    · rcases hbc with h2 | ⟨h2, h2d⟩
      · exact Or.inl (lt_of_lt_of_eq h2 h1.symm)
      · exact Or.inr ⟨h1.trans h2, h1d.trans h2d⟩

/-- `UpdateHighScores` from the highscores package: append the new entry,
sort by (score descending, duration ascending), truncate to
`maxHighScores` when longer. Go's `sort.Slice` (an unstable sort w.r.t.
this comparator, which is a strict weak order) is modelled by insertion
sort over the same ordering. -/
def UpdateHighScores (scores : List HighScore) (newScore : HighScore) :
    List HighScore :=
  let sorted := List.insertionSort scoreLE (scores ++ [newScore])
  if maxHighScores < sorted.length then sorted.take maxHighScores else sorted

/-- C8: after every admission the list is adjacently ordered by
(score descending, duration ascending as tie-break), its length never
exceeds the capacity 3, and admitting points 35 into {50, 40, 30} yields
{50, 40, 35} with 30 evicted. -/
theorem updateHighScores_spec :
    (∀ (scores : List HighScore) (newScore : HighScore),
      List.Chain' scoreLE (UpdateHighScores scores newScore) ∧
      (UpdateHighScores scores newScore).length ≤ maxHighScores) ∧
    (UpdateHighScores
        [⟨50, 10, "2024-01-01"⟩, ⟨40, 20, "2024-01-02"⟩, ⟨30, 30, "2024-01-03"⟩]
        ⟨35, 5, "2024-01-04"⟩).map (fun e => e.score) = [50, 40, 35] := by
  constructor
  · intro scores newScore
    have hsorted : List.Sorted scoreLE
        (List.insertionSort scoreLE (scores ++ [newScore])) :=
      List.sorted_insertionSort scoreLE (scores ++ [newScore])
    unfold UpdateHighScores
    dsimp only
    constructor
    · split
      · exact (hsorted.sublist (List.take_sublist _ _)).chain'
      · exact hsorted.chain'
    · split
      · exact List.length_take_le _ _
      · omega
  · decide

/-- States of the high-score backing file as `LoadHighScores` can observe
them: absent; unopenable after the existence check; lexically malformed
CSV (`csv.ReadAll` fails before producing records, e.g. a bare quote); or
the file's rows, each a list of string fields, still subject to
`ReadAll`'s field-count enforcement (`readAll` below). -/
inductive FileState where
  | missing : FileState
  | openError : FileState
  | csvError : FileState
  | content (records : List (List String)) : FileState

/-- `csv.Reader.ReadAll` with the default `FieldsPerRecord = 0` (the
reader in `LoadHighScores` never changes it): the first record fixes the
expected field count and any later record with a different count makes
the whole `ReadAll` fail (ErrFieldCount), returning no records at all. -/
def readAll (records : List (List String)) : Except String (List (List String)) :=
  match records with
  | [] => Except.ok []
  | first :: rest =>
    if rest.all (fun r => r.length == first.length) then Except.ok (first :: rest)
    else Except.error "wrong number of fields"

/-- The record loop of `LoadHighScores`, parametric in the two numeric
parsers (`strconv.Atoi` and `strconv.ParseFloat` are external library
collaborators; every theorem below holds for ANY behavior of them): rows
with a field count other than 3, a score the parser rejects, or a
duration the parser rejects are skipped (`continue`); kept rows are
appended in order. -/
def parseRecords (atoi : String → Option Int) (parseFloat : String → Option ℚ) :
    List (List String) → List HighScore
  | [] => []
  | r :: rest =>
    match r with
    | [s, d, dt] =>
      match atoi s, parseFloat d with
      | some sc, some du => ⟨sc, du, dt⟩ :: parseRecords atoi parseFloat rest
      | _, _ => parseRecords atoi parseFloat rest
    | _ => parseRecords atoi parseFloat rest

/-- `LoadHighScores` from the highscores package over an observed file
state: a missing file yields the empty list with no error; an open
failure or a CSV failure — lexical, or `readAll`'s field-count
enforcement — is returned as an error; only records that survive
`readAll` reach the skipping row loop. -/
def LoadHighScores (atoi : String → Option Int)
    (parseFloat : String → Option ℚ) : FileState → Except String (List HighScore)
  | .missing => .ok []
  | .openError => .error "open"
  | .csvError => .error "csv"
  | .content records =>
    match readAll records with
    | .error e => .error e
    | .ok recs => .ok (parseRecords atoi parseFloat recs)

/-- A row the loader's record loop keeps: exactly 3 fields, and both
numeric fields accepted by the respective parser. -/
def wellFormedRow (atoi : String → Option Int)
    (parseFloat : String → Option ℚ) (r : List String) : Prop :=
  r.length = 3 ∧ (atoi (r.getD 0 "")).isSome ∧ (parseFloat (r.getD 1 "")).isSome

instance (atoi : String → Option Int) (parseFloat : String → Option ℚ)
    (r : List String) : Decidable (wellFormedRow atoi parseFloat r) := by
  unfold wellFormedRow
  infer_instance

/-- Digit-string to number; `none` unless the list is a non-empty run of
decimal digits. Used only by the sample parsers below. -/
def digitsToNat? (l : List Char) : Option Nat :=
  if l ≠ [] ∧ l.all Char.isDigit then
    some (l.foldl (fun n c => 10 * n + (c.toNat - 48)) 0)
  else none

/-- A sample score parser (optional sign, then decimal digits) used ONLY
to instantiate the parser-parametric load theorems on concrete inputs; it
is not claimed to reproduce `strconv.Atoi`'s exact language (range errors
etc.), which the theorems do not depend on. -/
def atoiSample (s : String) : Option Int :=
  match s.toList with
  | '+' :: rest => (digitsToNat? rest).map Int.ofNat
  | '-' :: rest => (digitsToNat? rest).map fun n => -(n : Int)
  | l => (digitsToNat? l).map Int.ofNat

/-- A sample duration parser (optional minus sign, digits, optional
fractional digit group — the `%.1f` shape `SaveHighScores` writes) used
ONLY to instantiate the parser-parametric load theorems on concrete
inputs; it is not claimed to reproduce `strconv.ParseFloat`'s exact
language (exponent/Inf/NaN/hex forms, range), which the theorems do not
depend on. -/
def parseFloatSample (s : String) : Option ℚ :=
  let unsigned : List Char → Option ℚ := fun l =>
    let intPart := l.takeWhile fun c => c ≠ '.'
    match l.dropWhile fun c => c ≠ '.' with
    | [] => (digitsToNat? intPart).map fun n => (n : ℚ)
    | _ :: frac =>
      if frac.any fun c => c = '.' then none
      else
        match digitsToNat? intPart, digitsToNat? frac with
        | some i, some f => some ((i : ℚ) + (f : ℚ) / ((10 : ℚ) ^ frac.length))
        | _, _ => none
  match s.toList with
  | '-' :: rest => (unsigned rest).map fun q => -q
  | l => unsigned l

/-- C9 as stated is false: in a file whose first record has 3 fields, a
single wrong-field-count row ["20","3.5"] makes `csv.ReadAll` fail, so
the whole load surfaces an error instead of skipping the row and
returning the remaining well-formed entry — a malformed individual row IS
fatal. (The error arises before any field is parsed, so no parser choice
can avoid it.) -/
theorem loadHighScores_field_count_fatal_counterexample :
    (["20", "3.5"] : List String).length ≠ 3 ∧
    wellFormedRow atoiSample parseFloatSample ["10", "2.5", "2024-01-02"] ∧
    LoadHighScores atoiSample parseFloatSample
        (FileState.content [["10", "2.5", "2024-01-02"], ["20", "3.5"]]) =
      Except.error "wrong number of fields" :=
  ⟨by decide, by decide, rfl⟩

/-- C9 (amended): loading with the backing file missing yields the empty
list (no error). A row whose field count differs from the first record's
is fatal to the entire load (an error is surfaced and no entries are
returned). When the CSV layer delivers the records (all field counts
equal to the first record's), no error is ever surfaced: a row that is
malformed for the record loop — field count other than 3, or a numeric
field its parser rejects — is skipped without affecting the rest, and a
well-formed row contributes exactly one entry, so the well-formed
remainder is returned. All of this holds for every possible behavior of
the two external `strconv` parsers. -/
theorem loadHighScores_spec :
    (∀ (atoi : String → Option Int) (parseFloat : String → Option ℚ),
      LoadHighScores atoi parseFloat FileState.missing = Except.ok []) ∧
    (∀ (atoi : String → Option Int) (parseFloat : String → Option ℚ)
        (first : List String) (rest : List (List String)),
      (∃ r ∈ rest, r.length ≠ first.length) →
      ∃ e, LoadHighScores atoi parseFloat
        (FileState.content (first :: rest)) = Except.error e) ∧
    (∀ (atoi : String → Option Int) (parseFloat : String → Option ℚ)
        (records : List (List String)),
      readAll records = Except.ok records →
      ∃ l, LoadHighScores atoi parseFloat (FileState.content records) =
        Except.ok l) ∧
    (∀ (atoi : String → Option Int) (parseFloat : String → Option ℚ)
        (r : List String) (records : List (List String)),
      ¬wellFormedRow atoi parseFloat r →
      parseRecords atoi parseFloat (r :: records) =
        parseRecords atoi parseFloat records) ∧
    (∀ (atoi : String → Option Int) (parseFloat : String → Option ℚ)
        (r : List String) (records : List (List String)),
      wellFormedRow atoi parseFloat r →
      ∃ e, parseRecords atoi parseFloat (r :: records) =
        e :: parseRecords atoi parseFloat records) := by
  refine ⟨fun _ _ => rfl, ?_, ?_, ?_, ?_⟩
  · rintro atoi parseFloat first rest ⟨r, hr, hne⟩
    refine ⟨"wrong number of fields", ?_⟩
    have hall : rest.all (fun r => r.length == first.length) = false := by
      rw [List.all_eq_false]
      exact ⟨r, hr, by simpa using hne⟩
    unfold LoadHighScores readAll
    dsimp only
    rw [hall]
    rfl
  · intro atoi parseFloat records hok
    refine ⟨parseRecords atoi parseFloat records, ?_⟩
    unfold LoadHighScores
    dsimp only
    rw [hok]
  · intro atoi parseFloat r records hwf
    match r with
    | [] => rfl
    | [a] => rfl
    | [a, b] => rfl
    | a :: b :: c :: d :: r4 => rfl
    | [a, b, c] =>
      cases ha : atoi a with
      | none => simp [parseRecords, ha]
      | some sc =>
        cases hb : parseFloat b with
        | none => simp [parseRecords, ha, hb]
        | some du =>
          exact absurd ⟨rfl, by simp [ha], by simp [hb]⟩ hwf
  · intro atoi parseFloat r records hwf
    match r with
    | [] => exact absurd hwf.1 (by simp)
    | [a] => exact absurd hwf.1 (by simp)
    | [a, b] => exact absurd hwf.1 (by simp)
    | a :: b :: c :: d :: r4 => exact absurd hwf.1 (by simp)
    | [a, b, c] =>
      obtain ⟨-, hs, hd⟩ := hwf
      simp only [List.getD_cons_zero, List.getD_cons_succ] at hs hd
      cases ha : atoi a with
      | none => rw [ha] at hs; exact absurd hs (by simp)
      | some sc =>
        cases hb : parseFloat b with
        | none => rw [hb] at hd; exact absurd hd (by simp)
        | some du => exact ⟨⟨sc, du, c⟩, by simp [parseRecords, ha, hb]⟩

/-- Witness for C9's amended theorem: a mixed-field-count file errors; a
uniform 3-field file loads without error; a row with a rejected score is
skipped; the row "10,2.5,2024-01-02" is kept. -/
theorem loadHighScores_spec_witness :
    ((∃ r ∈ [[("20" : String), "3.5"]],
        r.length ≠ (["10", "2.5", "2024-01-02"] : List String).length) ∧
      ∃ e, LoadHighScores atoiSample parseFloatSample
        (FileState.content [["10", "2.5", "2024-01-02"], ["20", "3.5"]]) =
          Except.error e) ∧
    (readAll [["abc", "1.5", "2024-01-01"], ["10", "2.5", "2024-01-02"]] =
        Except.ok [["abc", "1.5", "2024-01-01"], ["10", "2.5", "2024-01-02"]] ∧
      ∃ l, LoadHighScores atoiSample parseFloatSample
        (FileState.content
          [["abc", "1.5", "2024-01-01"], ["10", "2.5", "2024-01-02"]]) =
          Except.ok l) ∧
    (¬wellFormedRow atoiSample parseFloatSample ["abc", "1.5", "2024-01-01"] ∧
      parseRecords atoiSample parseFloatSample
          [["abc", "1.5", "2024-01-01"], ["10", "2.5", "2024-01-02"]] =
        parseRecords atoiSample parseFloatSample [["10", "2.5", "2024-01-02"]]) ∧
    (wellFormedRow atoiSample parseFloatSample ["10", "2.5", "2024-01-02"] ∧
      ∃ e, parseRecords atoiSample parseFloatSample
          [["10", "2.5", "2024-01-02"]] =
        e :: parseRecords atoiSample parseFloatSample []) :=
  ⟨⟨by decide, loadHighScores_spec.2.1 atoiSample parseFloatSample
      ["10", "2.5", "2024-01-02"] [["20", "3.5"]] (by decide)⟩,
    ⟨rfl, loadHighScores_spec.2.2.1 atoiSample parseFloatSample
      [["abc", "1.5", "2024-01-01"], ["10", "2.5", "2024-01-02"]] rfl⟩,
    ⟨by decide, loadHighScores_spec.2.2.2.1 atoiSample parseFloatSample
      ["abc", "1.5", "2024-01-01"] [["10", "2.5", "2024-01-02"]] (by decide)⟩,
    ⟨by decide, loadHighScores_spec.2.2.2.2 atoiSample parseFloatSample
      ["10", "2.5", "2024-01-02"] [] (by decide)⟩⟩

/-- C10: food and bomb collision is axis-aligned rectangle overlap of two
size×size squares, not exact equality: whenever the item's position differs
from the head by strictly less than the cell size on both axes, both
collision checks succeed. In particular the lattice food cell (400,220) is
eaten by a head at (400,225) although the coordinates are unequal, while
`checkSelfCollision` — exact equality — does not fire on that pair. -/
theorem item_collision_is_rect_overlap :
    (∀ (head : Vec2) (size : Int) (food : Food) (bomb : Bomb),
      0 < size → food.size = size → bomb.size = size →
      |head.x - food.position.x| < size → |head.y - food.position.y| < size →
      |head.x - bomb.position.x| < size → |head.y - bomb.position.y| < size →
      checkFoodCollision head size food = true ∧
        checkBombCollision head size bomb = true) ∧
    (checkFoodCollision ⟨400, 225⟩ 20 ⟨⟨400, 220⟩, 20⟩ = true ∧
      (⟨400, 225⟩ : Vec2) ≠ ⟨400, 220⟩ ∧
      checkSelfCollision ⟨400, 225⟩ [⟨380, 225⟩, ⟨400, 220⟩] = false) := by
  constructor
  · intro head size food bomb hs hf hb hfx hfy hbx hby
    rw [abs_lt] at hfx hfy hbx hby
    unfold checkFoodCollision checkBombCollision checkCollisionRecs
    rw [hf, hb]
    constructor
    · rw [decide_eq_true_eq]
      dsimp only
      exact ⟨by omega, by omega, by omega, by omega⟩
    · rw [decide_eq_true_eq]
      dsimp only
      exact ⟨by omega, by omega, by omega, by omega⟩
  · exact ⟨by decide, by decide, by decide⟩

/-- Witness for C10: head (400,225), food (400,220), bomb (390,230), cell
size 20. -/
theorem item_collision_is_rect_overlap_witness :
    ((0 : Int) < 20 ∧
      |(400 : Int) - 400| < 20 ∧ |(225 : Int) - 220| < 20 ∧
      |(400 : Int) - 390| < 20 ∧ |(225 : Int) - 230| < 20) ∧
    (checkFoodCollision ⟨400, 225⟩ 20 ⟨⟨400, 220⟩, 20⟩ = true ∧
      checkBombCollision ⟨400, 225⟩ 20 ⟨⟨390, 230⟩, 20⟩ = true) :=
  ⟨⟨by decide, by decide, by decide, by decide, by decide⟩,
    item_collision_is_rect_overlap.1 ⟨400, 225⟩ 20 ⟨⟨400, 220⟩, 20⟩
      ⟨⟨390, 230⟩, 20⟩ (by decide) rfl rfl (by decide) (by decide)
      (by decide) (by decide)⟩

end SnakeGame
